/-
Verification of the path-profile / Fresnel-clearance analysis of
`Test-Fresenel.py` (repository Test-Fresnel-Zone).

The script's numerical pipeline is embedded shallowly:

* Python floats are idealised as exact rationals (`ℚ`) for all arithmetic
  the script performs with `+ - * /` and comparisons, and as reals (`ℝ`)
  where `np.sqrt` produces irrational values.
* Python float division raising `ZeroDivisionError` on a zero divisor is
  modelled by `pyDiv` returning `Except`; the script's single top-level
  `try/except` means any raised exception aborts the whole run, which the
  model reflects by propagating the `Except.error` through `analyze`.
* `np.sqrt` applied to a negative float yields NaN; `npSqrt` models NaN as
  `none`.  A float comparison against NaN is `False` in Python, which the
  obstruction test `violAt` reflects by returning `false` on a `none`
  radius.
* The geodesic distance primitive (geopy), the polygon centroid primitive
  (shapely) and the two network lookups (Google elevation API per path and
  per building centroid, Overpass building query) are external
  collaborators; they enter the model as function/list parameters.
* List indexing `xs[i]` is modelled by `List.getD` with a junk default;
  the theorems carry the length hypotheses (all per-sample lists have
  `numPoints = 100` entries) under which this agrees with Python indexing.
-/
import Mathlib

/-- Python float division: `a / b` raises `ZeroDivisionError` when `b = 0`,
otherwise produces the quotient. -/
def pyDiv (a b : ℚ) : Except String ℚ :=
  if b = 0 then Except.error "ZeroDivisionError" else Except.ok (a / b)

/-- A Python list comprehension / `for` loop whose body may raise: elements
are produced left to right and the first raised exception aborts the whole
construction. -/
def exMap {α β : Type} (f : α → Except String β) : List α → Except String (List β)
  | [] => Except.ok []
  | a :: l => do
    let b ← f a
    let bs ← exMap f l
    pure (b :: bs)

/-- Whether an `Except` computation finished without raising. -/
def exIsOk {α : Type} : Except String α → Bool
  | Except.ok _ => true
  | Except.error _ => false

/-- Source line 41: `num_points = 100`, a fixed constant of the script. -/
def numPoints : ℕ := 100

/-- Source lines 42-43: `np.linspace(a, b, n)`, the `n` uniformly spaced
values from `a` to `b` inclusive (step `(b - a)/(n - 1)`). -/
def linspace (a b : ℚ) (n : ℕ) : List ℚ :=
  (List.range n).map (fun i : ℕ => a + (i : ℚ) * (b - a) / ((n : ℚ) - 1))

/-- Source lines 42-44: the sampled (lat, lon) points, the elementwise zip of
`np.linspace(tx_lat, rx_lat, n)` and `np.linspace(tx_lon, rx_lon, n)`. -/
def pathPoints (tx rx : ℚ × ℚ) (n : ℕ) : List (ℚ × ℚ) :=
  List.zip (linspace tx.1 rx.1 n) (linspace tx.2 rx.2 n)

/-- Source line 54: `distances = [geodesic((tx_lat, tx_lon), (lat, lon)).meters
for lat, lon in ...]`, with the geodesic primitive `geo` supplied as a trusted
external function. -/
def distances (geo : ℚ × ℚ → ℚ × ℚ → ℚ) (tx : ℚ × ℚ) (pts : List (ℚ × ℚ)) : List ℚ :=
  pts.map (fun p => geo tx p)

/-- Source line 55: `total_dist = distances[-1]`. -/
def totalDist (ds : List ℚ) : ℚ :=
  ds.getLastD 0

/-- Source line 58: `los_line = np.linspace(elevations[0] + tx_height,
elevations[-1] + rx_height, num_points)`. -/
def losLine (elevs : List ℚ) (txh rxh : ℚ) : List ℚ :=
  linspace (elevs.headD 0 + txh) (elevs.getLastD 0 + rxh) numPoints

/-- Source line 103: `wavelength = 3e8 / (frequency * 1e9)` (Python float
division, hence `pyDiv`). -/
def wavelengthE (f : ℚ) : Except String ℚ :=
  pyDiv 300000000 (f * 1000000000)

/-- `np.sqrt` on a float: NaN (modelled `none`) for a negative argument,
otherwise the real square root. -/
noncomputable def npSqrt (x : ℚ) : Option ℝ :=
  if x < 0 then none else some (Real.sqrt (x : ℝ))

/-- Source line 104: `fresnel_radii = [np.sqrt(wavelength * d * (total_dist - d)
/ total_dist) for d in distances]`.  The division is Python float division
(raises on `total_dist = 0`); the square root is `np.sqrt`. -/
noncomputable def fresnelRadii (w L : ℚ) (ds : List ℚ) : Except String (List (Option ℝ)) :=
  exMap (fun d => Except.map npSqrt (pyDiv (w * d * (L - d)) L)) ds

/-- Source lines 42-44, 54-55, 103-104 composed: from the link inputs to the
Fresnel radius list. -/
noncomputable def radiiPipeline (geo : ℚ × ℚ → ℚ × ℚ → ℚ) (tx rx : ℚ × ℚ) (f : ℚ) :
    Except String (List (Option ℝ)) :=
  wavelengthE f >>= fun w =>
    fresnelRadii w (totalDist (distances geo tx (pathPoints tx rx numPoints)))
      (distances geo tx (pathPoints tx rx numPoints))

/-- Python `str.replace("m", "")` on a height tag: every occurrence of the
character `m` is removed. -/
def stripUnitM (s : String) : String :=
  String.mk (s.data.filter (fun c => c ≠ 'm'))

/-- Digit list to number, most significant first (`foldl acc*10 + digit`). -/
def digitsVal (cs : List Char) : ℚ :=
  cs.foldl (fun acc c => acc * 10 + ((c.toNat - 48 : ℕ) : ℚ)) 0

/-- Python `float(s)` restricted to plain unsigned decimal literals: an
optional integer part and an optional fractional part separated by a dot, at
least one digit overall; anything else is malformed (`None` stands for the
raised `ValueError`). -/
def parseUnsigned (cs : List Char) : Option ℚ :=
  let ip := cs.takeWhile Char.isDigit
  let rest := cs.dropWhile Char.isDigit
  match rest with
  | [] => if ip.isEmpty then none else some (digitsVal ip)
  | '.' :: fp =>
    if fp.all Char.isDigit ∧ (ip ≠ [] ∨ fp ≠ []) then
      some (digitsVal ip + digitsVal fp / 10 ^ fp.length)
    else none
  | _ => none

/-- Python `float(s)` on plain decimal literals with an optional sign. -/
def parseFloat (s : String) : Option ℚ :=
  match s.data with
  | '-' :: cs => (parseUnsigned cs).map Neg.neg
  | '+' :: cs => parseUnsigned cs
  | cs => parseUnsigned cs

/-- An OSM way as the script consumes it: its node coordinates (lon, lat) and
its tag dictionary (modelled as an association list). -/
structure Way where
  nodes : List (ℚ × ℚ)
  tags : List (String × String)

/-- Python `way.tags[k]` guarded by `k in way.tags`. -/
def lookupTag (tags : List (String × String)) (k : String) : Option String :=
  (tags.find? (fun t => t.1 == k)).map (fun t => t.2)

/-- Source lines 80-85: `Polygon(pts)`; shapely raises on fewer than 3
points, and the `try/except: continue` drops such a way. -/
def mkPolygon (pts : List (ℚ × ℚ)) : Option (List (ℚ × ℚ)) :=
  if 3 ≤ pts.length then some pts else none

/-- Source lines 79-85: `building_geoms`, the non-degenerate footprints. -/
def buildingGeoms (ways : List Way) : List (List (ℚ × ℚ)) :=
  ways.filterMap (fun w => mkPolygon w.nodes)

/-- Source lines 87-100: height resolution for one way.  `h = 10.0`; if a
`height` tag exists, try `float(tag.replace("m", ""))` keeping `10.0` on
failure; `elif` a `building:levels` tag exists, try `float(tag) * 3.0`
keeping `10.0` on failure. -/
def buildingHeight (tags : List (String × String)) : ℚ :=
  match lookupTag tags "height" with
  | some v => (parseFloat (stripUnitM v)).getD 10
  | none =>
    match lookupTag tags "building:levels" with
    | some v =>
      match parseFloat v with
      | some x => x * 3
      | none => 10
    | none => 10

/-- Source lines 87-100: `building_heights`, one height per way. -/
def buildingHeights (ways : List Way) : List ℚ :=
  ways.map (fun w => buildingHeight w.tags)

/-- Source lines 116-125: the building overlay loop over
`zip(building_geoms, building_heights)`: for each footprint compute the
centroid (shapely primitive `cen`), its geodesic distance from TX, and fetch
its ground elevation (`bE`, a network call whose failure raises); record
`(distance, ground_elevation, height)`. -/
def buildingPlotData (geo : ℚ × ℚ → ℚ × ℚ → ℚ) (tx : ℚ × ℚ)
    (cen : List (ℚ × ℚ) → ℚ × ℚ) (bE : ℚ × ℚ → Except String ℚ)
    (bs : List (List (ℚ × ℚ) × ℚ)) : Except String (List (ℚ × ℚ × ℚ)) :=
  exMap (fun pg => Except.map (fun elev => (geo tx (cen pg.1), elev, pg.2)) (bE (cen pg.1))) bs

open Classical in
/-- Source line 136: the obstruction test at sample `i`:
`elevations[i] > los_line[i] - 0.6 * fresnel_radii[i]`.  A NaN radius
(`none`) makes the float comparison `False`. -/
noncomputable def violAt (elev los : List ℚ) (radii : List (Option ℝ)) (i : ℕ) : Bool :=
  match radii.getD i none with
  | none => false
  | some r => decide (((elev.getD i 0 : ℚ) : ℝ) > ((los.getD i 0 : ℚ) : ℝ) - 0.6 * r)

/-- The `for i in range(n)` scan starting at index `i` with `n` iterations
left: return the index of the first `true`, else `none`. -/
def firstViolAux (p : ℕ → Bool) : ℕ → ℕ → Option ℕ
  | 0, _ => none
  | n + 1, i => if p i then some i else firstViolAux p n (i + 1)

/-- Source lines 134-138: the obstruction loop.  It scans `i` in
`range(num_points)` and breaks at the first sample where `violAt` holds;
the returned value is the index at which the `break` occurred (`none` when
the loop ran to completion, i.e. `obstruction` stayed `False`). -/
noncomputable def firstViolation (elev los : List ℚ) (radii : List (Option ℝ)) : Option ℕ :=
  firstViolAux (violAt elev los radii) numPoints 0

/-- The data the script has assembled when it reaches the verdict:
the distance axis, the terrain profile, the LOS line, the Fresnel radii,
the building overlay tuples, the index at which the obstruction loop broke,
and the final `obstruction` flag. -/
structure AnalysisResult where
  distances : List ℚ
  elevations : List ℚ
  losLine : List ℚ
  radii : List (Option ℝ)
  buildings : List (ℚ × ℚ × ℚ)
  violationIndex : Option ℕ
  obstructed : Bool

/-- The whole run of the script's `try:` block, in source order: sample the
path and build the distance axis and LOS line (lines 41-58), resolve building
footprints and heights (lines 79-100), compute the wavelength and Fresnel
radii (lines 103-104), run the building overlay loop with its per-building
elevation lookups (lines 116-125), and finally the obstruction scan (lines
133-138).  Any raised exception aborts the run (`Except.error`), matching the
script's single generic `except` handler. -/
noncomputable def analyze (geo : ℚ × ℚ → ℚ × ℚ → ℚ) (tx rx : ℚ × ℚ)
    (txh rxh f : ℚ) (elevs : List ℚ) (ways : List Way)
    (cen : List (ℚ × ℚ) → ℚ × ℚ) (bE : ℚ × ℚ → Except String ℚ) :
    Except String AnalysisResult := do
  let pts := pathPoints tx rx numPoints
  let ds := distances geo tx pts
  let L := totalDist ds
  let los := losLine elevs txh rxh
  let geoms := buildingGeoms ways
  let heights := buildingHeights ways
  let w ← wavelengthE f
  let rs ← fresnelRadii w L ds
  let bs ← buildingPlotData geo tx cen bE (geoms.zip heights)
  let vi := firstViolation elevs los rs
  pure ⟨ds, elevs, los, rs, bs, vi, vi.isSome⟩

/-- Modelled from the spec (claim C2): terrain sample `i` lies at or above
the clearance threshold `reference_elevation - 0.6 * radius`. -/
def specSampleAtOrAbove (elev los : List ℚ) (radii : List (Option ℝ)) (i : ℕ) : Prop :=
  ∃ r, radii.getD i none = some r ∧
    ((elev.getD i 0 : ℚ) : ℝ) ≥ ((los.getD i 0 : ℚ) : ℝ) - 0.6 * r

/-- Modelled from the spec (claim C1): a building overlay tuple
`(distance, ground_elevation, height)` obstructs when the building top
`ground_elevation + height` exceeds the clearance threshold
`reference_elevation - 0.6 * radius` interpolated at its projected
distance; at a sample whose distance equals the building's distance the
interpolation is exact, so the threshold is read off at that sample. -/
def specBuildingObstructsAtSample (ds los : List ℚ) (radii : List (Option ℝ))
    (b : ℚ × ℚ × ℚ) : Prop :=
  ∃ j < numPoints, ds.getD j 0 = b.1 ∧
    ∃ r, radii.getD j none = some r ∧
      ((b.2.1 + b.2.2 : ℚ) : ℝ) > ((los.getD j 0 : ℚ) : ℝ) - 0.6 * r

/-- Modelled from the spec (claim C6): the minimum terrain elevation
observed along the path, the fallback ground elevation the spec prescribes
for a building whose elevation lookup failed. -/
def specMinTerrain (elevs : List ℚ) : ℚ :=
  (elevs.min?).getD 0

/-- Claim C1 as stated: in every successful analysis, a building that
intrudes into the clearance envelope at its projected distance forces an
obstructed verdict whenever no terrain violation preempts it. -/
def buildingsAffectVerdict : Prop :=
  ∀ geo tx rx txh rxh f elevs ways cen bE res,
    analyze geo tx rx txh rxh f elevs ways cen bE = Except.ok res →
    res.violationIndex = none →
    (∃ b ∈ res.buildings,
      specBuildingObstructsAtSample res.distances res.losLine res.radii b) →
    res.obstructed = true

/-- Claim C2 as stated (the part the code falsifies): a terrain sample lying
at or above the clearance threshold makes the verdict Obstructed. -/
def atOrAboveForcesObstructed : Prop :=
  ∀ geo tx rx txh rxh f elevs ways cen bE res,
    analyze geo tx rx txh rxh f elevs ways cen bE = Except.ok res →
    (∃ i < numPoints, specSampleAtOrAbove res.elevations res.losLine res.radii i) →
    res.obstructed = true

/-- Claim C3 as stated: when TX equals RX the analysis raises
`InvalidGeometryError`. -/
def raisesInvalidGeometryError : Prop :=
  ∀ geo tx txh rxh f elevs ways cen bE,
    geo tx tx = 0 →
    analyze geo tx tx txh rxh f elevs ways cen bE = Except.error "InvalidGeometryError"

/-- Claim C4 as stated: every Fresnel radius of a completed analysis is a
defined (non-NaN) non-negative value, the radicand having been clamped. -/
def radiiAlwaysDefinedNonneg : Prop :=
  ∀ geo tx rx txh rxh f elevs ways cen bE res,
    analyze geo tx rx txh rxh f elevs ways cen bE = Except.ok res →
    ∀ r ∈ res.radii, ∃ v, r = some v ∧ 0 ≤ v

/-- Claim C5 as stated (the part the code falsifies): a malformed `height`
tag falls through to the `building:levels` rule. -/
def fallsThroughToLevels : Prop :=
  ∀ tags v w x,
    lookupTag tags "height" = some v →
    parseFloat (stripUnitM v) = none →
    lookupTag tags "building:levels" = some w →
    parseFloat w = some x →
    buildingHeight tags = x * 3

/-- Claim C6 as stated: a failed elevation lookup for a building centroid
does not fail the analysis; that building's ground elevation falls back to
the minimum terrain elevation and the rest of the result is produced. -/
def lookupFailureFallsBack : Prop :=
  ∀ geo tx rx txh rxh f elevs ways cen bE,
    (∃ wy ∈ ways, ∃ g, mkPolygon wy.nodes = some g ∧ ∀ q, bE (cen g) ≠ Except.ok q) →
    ∃ res, analyze geo tx rx txh rxh f elevs ways cen bE = Except.ok res ∧
      ∃ b ∈ res.buildings, b.2.1 = specMinTerrain elevs

/-- A concrete stand-in for the trusted geodesic primitive on a short
east-west path: the distance between two points is the absolute longitude
difference (in model units). -/
def geoLon (p q : ℚ × ℚ) : ℚ := |q.2 - p.2|

/-- A distance oracle exhibiting the scenario of claim C4: the sample at
longitude `50/99` is reported farther from TX than RX is, making one
`distance_m[i]` exceed `total_path_length_m`. -/
def geoSpike (p q : ℚ × ℚ) : ℚ := if q.2 = 50 / 99 then 2 else |q.2 - p.2|

/-- Flat terrain: 100 samples of elevation 0. -/
def elevs0 : List ℚ := List.replicate 100 0

/-- The distance axis produced by `geoLon` on the path from (0,0) to (0,1). -/
def dsEx : List ℚ := (List.range 100).map (fun i : ℕ => (i : ℚ) / 99)

/-- The Fresnel radii along `dsEx` for wavelength 1 and total distance 1. -/
noncomputable def rsEx : List (Option ℝ) := dsEx.map (fun d => npSqrt (d * (1 - d)))

/-- The distance axis produced by `geoSpike`: sample 50 is at distance 2. -/
def dsSpike : List ℚ :=
  (List.range 100).map (fun i : ℕ => if (i : ℚ) / 99 = 50 / 99 then 2 else (i : ℚ) / 99)

/-- The Fresnel radii along `dsSpike` for wavelength 1 and total distance 1:
sample 50 has the negative radicand `2 * (1 - 2)` and is NaN. -/
noncomputable def rsSpike : List (Option ℝ) := dsSpike.map (fun d => npSqrt (d * (1 - d)))

/-- A concrete building footprint (four nodes near the path midpoint), with
no tags. -/
def way1 : Way := ⟨[(0, 1/2), (1/1000, 1/2), (1/1000, 501/1000), (0, 501/1000)], []⟩

/-- A concrete stand-in for the shapely centroid primitive: every footprint
is centred at longitude `50/99`, which is exactly sample 50 of `dsEx`. -/
def cen0 : List (ℚ × ℚ) → ℚ × ℚ := fun _ => (0, 50 / 99)

/-- A building-centroid elevation service that always answers 1000 m. -/
def bElevOk : ℚ × ℚ → Except String ℚ := fun _ => Except.ok 1000

/-- A building-centroid elevation service whose lookup always fails. -/
def bElevFail : ℚ × ℚ → Except String ℚ := fun _ => Except.error "lookup failed"

lemma exBind_ok {α β : Type} (a : α) (f : α → Except String β) :
    (Except.ok a : Except String α) >>= f = f a := rfl

lemma exBind_error {α β : Type} (e : String) (f : α → Except String β) :
    (Except.error e : Except String α) >>= f = Except.error e := rfl

lemma exMapF_ok {α β : Type} (g : α → β) (a : α) :
    Except.map g (Except.ok a : Except String α) = Except.ok (g a) := rfl

lemma exMapF_error {α β : Type} (g : α → β) (e : String) :
    Except.map g (Except.error e : Except String α) = Except.error e := rfl

lemma exMap_nil {α β : Type} (f : α → Except String β) : exMap f [] = Except.ok [] := rfl

lemma exMap_cons {α β : Type} (f : α → Except String β) (a : α) (l : List α) :
    exMap f (a :: l) = f a >>= fun b => exMap f l >>= fun bs => Except.ok (b :: bs) := rfl

lemma exMap_ok_of {α β : Type} {f : α → Except String β} {g : α → β} :
    ∀ {l : List α}, (∀ a ∈ l, f a = Except.ok (g a)) → exMap f l = Except.ok (l.map g)
  | [], _ => rfl
  | a :: l, h => by
    rw [exMap_cons, h a (List.mem_cons_self a l), exBind_ok,
      exMap_ok_of (fun x hx => h x (List.mem_cons_of_mem a hx)), exBind_ok, List.map_cons]

lemma exMap_ok_length {α β : Type} {f : α → Except String β} :
    ∀ {l : List α} {bs : List β}, exMap f l = Except.ok bs → bs.length = l.length := by
  intro l
  induction l with
  | nil => intro bs h; cases h; rfl
  | cons a t ih =>
    intro bs h
    rw [exMap_cons] at h
    cases hfa : f a with
    | error e => rw [hfa, exBind_error] at h; cases h
    | ok b =>
      rw [hfa, exBind_ok] at h
      cases ht : exMap f t with
      | error e => rw [ht, exBind_error] at h; cases h
      | ok bt =>
        rw [ht, exBind_ok] at h
        cases h
        simp [ih ht]

lemma linspace_length (a b : ℚ) (n : ℕ) : (linspace a b n).length = n := by
  rw [linspace, List.length_map, List.length_range]

lemma linspace_getElem? (a b : ℚ) {i n : ℕ} (h : i < n) :
    (linspace a b n)[i]? = some (a + (i : ℚ) * (b - a) / ((n : ℚ) - 1)) := by
  rw [linspace, List.getElem?_map, List.getElem?_range h]
  rfl

lemma linspace_getD (a b : ℚ) {i : ℕ} (h : i < numPoints) :
    (linspace a b numPoints).getD i 0 = a + (i : ℚ) * (b - a) / 99 := by
  rw [List.getD_eq_getElem?_getD, linspace_getElem? a b h]
  norm_num [numPoints]

lemma head_map_range {α : Type} (f : ℕ → α) (n : ℕ) :
    ((List.range (n + 1)).map f).head? = some (f 0) := by
  rw [List.head?_eq_getElem?, List.getElem?_map, List.getElem?_range (Nat.succ_pos n)]
  rfl

lemma getLast_map_range {α : Type} (f : ℕ → α) (n : ℕ) :
    ((List.range (n + 1)).map f).getLast? = some (f n) := by
  rw [List.range_succ, List.map_append]
  exact List.getLast?_concat _

lemma getD_map_range {α : Type} [Inhabited α] (f : ℕ → α) (d : α) {i n : ℕ} (h : i < n) :
    ((List.range n).map f).getD i d = f i := by
  rw [List.getD_eq_getElem?_getD, List.getElem?_map, List.getElem?_range h]
  rfl

lemma linspace_head (a b : ℚ) : (linspace a b numPoints).head? = some a := by
  rw [linspace, show numPoints = 99 + 1 from rfl, head_map_range]
  norm_num

lemma linspace_getLast (a b : ℚ) : (linspace a b numPoints).getLast? = some b := by
  rw [linspace, show numPoints = 99 + 1 from rfl, getLast_map_range]
  congr 1
  push_cast
  ring_nf

lemma pathPoints_eq (tx rx : ℚ × ℚ) (n : ℕ) :
    pathPoints tx rx n = (List.range n).map (fun i : ℕ =>
      (tx.1 + (i : ℚ) * (rx.1 - tx.1) / ((n : ℚ) - 1),
       tx.2 + (i : ℚ) * (rx.2 - tx.2) / ((n : ℚ) - 1))) := by
  rw [pathPoints, linspace, linspace, List.zip_map']

lemma distances_map (geo : ℚ × ℚ → ℚ × ℚ → ℚ) (tx : ℚ × ℚ) (g : ℕ → ℚ × ℚ) (n : ℕ) :
    distances geo tx ((List.range n).map g) = (List.range n).map (fun i => geo tx (g i)) := by
  rw [distances, List.map_map]
  rfl

lemma npSqrt_of_nonneg {x : ℚ} (h : 0 ≤ x) : npSqrt x = some (Real.sqrt (x : ℝ)) := by
  rw [npSqrt, if_neg (not_lt.2 h)]

lemma npSqrt_of_neg {x : ℚ} (h : x < 0) : npSqrt x = none := by
  rw [npSqrt, if_pos h]

lemma npSqrt_zero : npSqrt 0 = some 0 := by
  rw [npSqrt_of_nonneg le_rfl]
  norm_num

lemma sqrt_rad_le_half (x : ℝ) :
    Real.sqrt (x * (1 - x)) ≤ 1 / 2 := by
  have hle : x * (1 - x) ≤ (1 / 2) ^ 2 := by nlinarith [sq_nonneg (x - 1 / 2)]
  calc Real.sqrt (x * (1 - x)) ≤ Real.sqrt ((1 / 2) ^ 2) := Real.sqrt_le_sqrt hle
    _ = 1 / 2 := by
        rw [Real.sqrt_sq]
        norm_num

lemma firstViolAux_none {p : ℕ → Bool} :
    ∀ {n i : ℕ}, (∀ j, i ≤ j → j < i + n → p j = false) → firstViolAux p n i = none := by
  intro n
  induction n with
  | zero => intro i _; rfl
  | succ m ih =>
    intro i h
    rw [firstViolAux, h i le_rfl (by omega), if_neg (by simp)]
    exact ih (fun j hj hj2 => h j (by omega) (by omega))

lemma firstViolAux_some {p : ℕ → Bool} :
    ∀ {n i k : ℕ}, i ≤ k → k < i + n → p k = true →
      (∀ j, i ≤ j → j < k → p j = false) → firstViolAux p n i = some k := by
  intro n
  induction n with
  | zero => intro i k h1 h2; omega
  | succ m ih =>
    intro i k h1 h2 h3 h4
    by_cases hik : i = k
    · subst hik
      rw [firstViolAux, if_pos h3]
    · rw [firstViolAux, h4 i le_rfl (by omega), if_neg (by simp)]
      exact ih (by omega) (by omega) h3 (fun j hj hj2 => h4 j (by omega) hj2)

lemma firstViolAux_some_elim {p : ℕ → Bool} :
    ∀ {n i k : ℕ}, firstViolAux p n i = some k →
      i ≤ k ∧ k < i + n ∧ p k = true ∧ ∀ j, i ≤ j → j < k → p j = false := by
  intro n
  induction n with
  | zero => intro i k h; cases h
  | succ m ih =>
    intro i k h
    rw [firstViolAux] at h
    by_cases hp : p i = true
    · rw [if_pos hp] at h
      cases h
      exact ⟨le_rfl, by omega, hp, fun j hj hj2 => by omega⟩
    · rw [if_neg hp] at h
      obtain ⟨h1, h2, h3, h4⟩ := ih h
      refine ⟨by omega, by omega, h3, fun j hj hj2 => ?_⟩
      by_cases hji : j = i
      · subst hji; simpa using hp
      · exact h4 j (by omega) hj2

lemma analyze_eq (geo : ℚ × ℚ → ℚ × ℚ → ℚ) (tx rx : ℚ × ℚ) (txh rxh f : ℚ)
    (elevs : List ℚ) (ways : List Way) (cen : List (ℚ × ℚ) → ℚ × ℚ)
    (bE : ℚ × ℚ → Except String ℚ) :
    analyze geo tx rx txh rxh f elevs ways cen bE =
      wavelengthE f >>= fun w =>
        fresnelRadii w (totalDist (distances geo tx (pathPoints tx rx numPoints)))
          (distances geo tx (pathPoints tx rx numPoints)) >>= fun rs =>
          buildingPlotData geo tx cen bE ((buildingGeoms ways).zip (buildingHeights ways)) >>=
            fun bs =>
              Except.ok ⟨distances geo tx (pathPoints tx rx numPoints), elevs,
                losLine elevs txh rxh, rs, bs,
                firstViolation elevs (losLine elevs txh rxh) rs,
                (firstViolation elevs (losLine elevs txh rxh) rs).isSome⟩ := rfl

lemma analyze_ok_iff {geo : ℚ × ℚ → ℚ × ℚ → ℚ} {tx rx : ℚ × ℚ} {txh rxh f : ℚ}
    {elevs : List ℚ} {ways : List Way} {cen : List (ℚ × ℚ) → ℚ × ℚ}
    {bE : ℚ × ℚ → Except String ℚ} {res : AnalysisResult} :
    analyze geo tx rx txh rxh f elevs ways cen bE = Except.ok res ↔
    ∃ w rs bs,
      wavelengthE f = Except.ok w ∧
      fresnelRadii w (totalDist (distances geo tx (pathPoints tx rx numPoints)))
        (distances geo tx (pathPoints tx rx numPoints)) = Except.ok rs ∧
      buildingPlotData geo tx cen bE ((buildingGeoms ways).zip (buildingHeights ways)) =
        Except.ok bs ∧
      res = ⟨distances geo tx (pathPoints tx rx numPoints), elevs, losLine elevs txh rxh, rs, bs,
        firstViolation elevs (losLine elevs txh rxh) rs,
        (firstViolation elevs (losLine elevs txh rxh) rs).isSome⟩ := by
  constructor
  · intro h
    rw [analyze_eq] at h
    cases hw : wavelengthE f with
    | error e => rw [hw, exBind_error] at h; cases h
    | ok w =>
      rw [hw, exBind_ok] at h
      cases hr : fresnelRadii w (totalDist (distances geo tx (pathPoints tx rx numPoints)))
          (distances geo tx (pathPoints tx rx numPoints)) with
      | error e => rw [hr, exBind_error] at h; cases h
      | ok rs =>
        rw [hr, exBind_ok] at h
        cases hb : buildingPlotData geo tx cen bE
            ((buildingGeoms ways).zip (buildingHeights ways)) with
        | error e => rw [hb, exBind_error] at h; cases h
        | ok bs =>
          rw [hb, exBind_ok] at h
          cases h
          exact ⟨w, rs, bs, rfl, hr, rfl, rfl⟩
  · rintro ⟨w, rs, bs, hw, hr, hb, rfl⟩
    rw [analyze_eq, hw, exBind_ok, hr, exBind_ok, hb, exBind_ok]

lemma dsEx_eq :
    distances geoLon ((0 : ℚ), (0 : ℚ)) (pathPoints ((0 : ℚ), (0 : ℚ)) ((0 : ℚ), (1 : ℚ)) numPoints)
      = dsEx := by
  rw [pathPoints_eq, distances_map, dsEx, show numPoints = 100 from rfl]
  refine List.map_congr_left ?_
  intro i hi
  rw [geoLon]
  norm_num
  positivity

lemma totalDist_dsEx : totalDist dsEx = 1 := by
  rw [totalDist, List.getLastD_eq_getLast?, dsEx, show (100 : ℕ) = 99 + 1 from rfl,
    getLast_map_range]
  norm_num

lemma wavelengthE_ex : wavelengthE (3 / 10) = Except.ok 1 := by
  rw [wavelengthE, pyDiv, if_neg (by norm_num)]
  norm_num

lemma fresnelRadii_one_one (ds : List ℚ) :
    fresnelRadii 1 1 ds = Except.ok (ds.map (fun d => npSqrt (d * (1 - d)))) := by
  rw [fresnelRadii]
  refine exMap_ok_of ?_
  intro d _
  rw [pyDiv, if_neg one_ne_zero, exMapF_ok]
  congr 1
  ring

lemma rsEx_getD {i : ℕ} (h : i < 100) :
    rsEx.getD i none
      = some (Real.sqrt ((((i : ℚ) / 99 * (1 - (i : ℚ) / 99) : ℚ)) : ℝ)) := by
  have h99 : (i : ℚ) ≤ 99 := by exact_mod_cast Nat.lt_succ_iff.mp h
  have h1 : (i : ℚ) / 99 ≤ 1 := by rw [div_le_one (by norm_num)]; linarith
  have h0 : (0 : ℚ) ≤ (i : ℚ) / 99 := by positivity
  rw [rsEx, dsEx, List.map_map, getD_map_range _ _ h]
  show npSqrt ((i : ℚ) / 99 * (1 - (i : ℚ) / 99)) = _
  rw [npSqrt_of_nonneg (mul_nonneg h0 (by linarith))]

lemma elevs0_headD : elevs0.headD 0 = 0 := by
  rw [elevs0, show (100 : ℕ) = 99 + 1 from rfl, List.replicate_succ]
  rfl

lemma elevs0_getLastD : elevs0.getLastD 0 = 0 := by
  rw [elevs0, List.getLastD_eq_getLast?, show (100 : ℕ) = 99 + 1 from rfl,
    List.replicate_succ', List.getLast?_concat]
  rfl

lemma elevs0_getD {i : ℕ} (h : i < 100) : elevs0.getD i 0 = 0 := by
  rw [elevs0, List.getD_eq_getElem?_getD, List.getElem?_replicate]
  simp [h]

lemma losLine_elevs0 (txh rxh : ℚ) : losLine elevs0 txh rxh = linspace txh rxh numPoints := by
  rw [losLine, elevs0_headD, elevs0_getLastD, zero_add, zero_add]

lemma violAt_ex_eq (txh rxh : ℚ) {i : ℕ} (h : i < 100) :
    violAt elevs0 (losLine elevs0 txh rxh) rsEx i =
      decide ((((0 : ℚ)) : ℝ) > (((txh + (i : ℚ) * (rxh - txh) / 99 : ℚ)) : ℝ)
        - 0.6 * Real.sqrt ((((i : ℚ) / 99 * (1 - (i : ℚ) / 99) : ℚ)) : ℝ)) := by
  rw [violAt, rsEx_getD h, losLine_elevs0, linspace_getD txh rxh h, elevs0_getD h]

lemma violAt_ex_clear10 {i : ℕ} (h : i < 100) :
    violAt elevs0 (losLine elevs0 10 10) rsEx i = false := by
  rw [violAt_ex_eq 10 10 h]
  apply decide_eq_false
  push_cast
  intro hcon
  have hb := sqrt_rad_le_half ((i : ℝ) / 99)
  have hs := Real.sqrt_nonneg ((i : ℝ) / 99 * (1 - (i : ℝ) / 99))
  nlinarith

lemma violAt_ex_clear040 {i : ℕ} (h : i < 100) :
    violAt elevs0 (losLine elevs0 0 40) rsEx i = false := by
  rw [violAt_ex_eq 0 40 h]
  apply decide_eq_false
  push_cast
  intro hcon
  rcases Nat.eq_zero_or_pos i with hi | hi
  · subst hi
    norm_num at hcon
  · have h1 : (1 : ℝ) ≤ (i : ℝ) := by exact_mod_cast hi
    have hb := sqrt_rad_le_half ((i : ℝ) / 99)
    have hs := Real.sqrt_nonneg ((i : ℝ) / 99 * (1 - (i : ℝ) / 99))
    nlinarith

lemma firstViolation_clear10 :
    firstViolation elevs0 (losLine elevs0 10 10) rsEx = none := by
  rw [firstViolation]
  refine firstViolAux_none ?_
  intro j hj1 hj2
  refine violAt_ex_clear10 ?_
  rw [show (0 : ℕ) + numPoints = 100 from rfl] at hj2
  exact hj2

lemma firstViolation_clear040 :
    firstViolation elevs0 (losLine elevs0 0 40) rsEx = none := by
  rw [firstViolation]
  refine firstViolAux_none ?_
  intro j hj1 hj2
  refine violAt_ex_clear040 ?_
  rw [show (0 : ℕ) + numPoints = 100 from rfl] at hj2
  exact hj2

lemma buildingGeoms_way1 : buildingGeoms [way1] = [way1.nodes] := by
  simp [buildingGeoms, mkPolygon, way1]

lemma buildingHeights_way1 : buildingHeights [way1] = [10] := rfl

lemma buildingPlot_way1 :
    buildingPlotData geoLon ((0 : ℚ), (0 : ℚ)) cen0 bElevOk
      ((buildingGeoms [way1]).zip (buildingHeights [way1])) =
      Except.ok [(50 / 99, 1000, 10)] := by
  rw [buildingGeoms_way1, buildingHeights_way1]
  rw [show ([way1.nodes].zip ([10] : List ℚ)) = [(way1.nodes, (10 : ℚ))] from rfl]
  rw [buildingPlotData, exMap_cons, exMap_nil]
  rw [show bElevOk (cen0 way1.nodes) = Except.ok (1000 : ℚ) from rfl]
  rw [exMapF_ok, exBind_ok, exBind_ok]
  rw [show geoLon ((0 : ℚ), (0 : ℚ)) (cen0 way1.nodes) = 50 / 99 by
    rw [cen0, geoLon]; norm_num]

lemma buildingPlot_nil (geo : ℚ × ℚ → ℚ × ℚ → ℚ) (tx : ℚ × ℚ)
    (cen : List (ℚ × ℚ) → ℚ × ℚ) (bE : ℚ × ℚ → Except String ℚ) :
    buildingPlotData geo tx cen bE ((buildingGeoms []).zip (buildingHeights [])) =
      Except.ok [] := rfl

lemma rsEx_def : dsEx.map (fun d => npSqrt (d * (1 - d))) = rsEx := rfl

lemma analyzeC1 :
    analyze geoLon ((0 : ℚ), (0 : ℚ)) ((0 : ℚ), (1 : ℚ)) 10 10 (3 / 10) elevs0 [way1] cen0 bElevOk
      = Except.ok ⟨dsEx, elevs0, losLine elevs0 10 10, rsEx, [(50 / 99, 1000, 10)],
          none, false⟩ := by
  rw [analyze_eq, wavelengthE_ex]
  simp only [exBind_ok]
  rw [dsEx_eq, totalDist_dsEx, fresnelRadii_one_one]
  simp only [exBind_ok]
  rw [buildingPlot_way1]
  simp only [exBind_ok]
  rw [rsEx_def, firstViolation_clear10]
  rfl

lemma analyzeC1b :
    analyze geoLon ((0 : ℚ), (0 : ℚ)) ((0 : ℚ), (1 : ℚ)) 10 10 (3 / 10) elevs0 [] cen0 bElevFail
      = Except.ok ⟨dsEx, elevs0, losLine elevs0 10 10, rsEx, [], none, false⟩ := by
  rw [analyze_eq, wavelengthE_ex]
  simp only [exBind_ok]
  rw [dsEx_eq, totalDist_dsEx, fresnelRadii_one_one]
  simp only [exBind_ok]
  rw [buildingPlot_nil]
  simp only [exBind_ok]
  rw [rsEx_def, firstViolation_clear10]
  rfl

lemma analyzeC2 :
    analyze geoLon ((0 : ℚ), (0 : ℚ)) ((0 : ℚ), (1 : ℚ)) 0 40 (3 / 10) elevs0 [] cen0 bElevOk
      = Except.ok ⟨dsEx, elevs0, losLine elevs0 0 40, rsEx, [], none, false⟩ := by
  rw [analyze_eq, wavelengthE_ex]
  simp only [exBind_ok]
  rw [dsEx_eq, totalDist_dsEx, fresnelRadii_one_one]
  simp only [exBind_ok]
  rw [buildingPlot_nil]
  simp only [exBind_ok]
  rw [rsEx_def, firstViolation_clear040]
  rfl

lemma dsSpike_eq :
    distances geoSpike ((0 : ℚ), (0 : ℚ))
      (pathPoints ((0 : ℚ), (0 : ℚ)) ((0 : ℚ), (1 : ℚ)) numPoints) = dsSpike := by
  rw [pathPoints_eq, distances_map, dsSpike, show numPoints = 100 from rfl]
  refine List.map_congr_left ?_
  intro i hi
  simp only [geoSpike]
  norm_num
  split_ifs with hc
  · rfl
  · exact abs_of_nonneg (by positivity)

lemma totalDist_dsSpike : totalDist dsSpike = 1 := by
  rw [totalDist, List.getLastD_eq_getLast?, dsSpike, show (100 : ℕ) = 99 + 1 from rfl,
    getLast_map_range]
  norm_num

lemma rsSpike_def : dsSpike.map (fun d => npSqrt (d * (1 - d))) = rsSpike := rfl

lemma rsSpike_mem_none : (none : Option ℝ) ∈ rsSpike := by
  have h50 : rsSpike[50]? = some none := by
    rw [rsSpike, dsSpike, List.map_map, List.getElem?_map,
      List.getElem?_range (by norm_num : (50 : ℕ) < 100)]
    simp only [Option.map_some', Function.comp_apply]
    norm_num [npSqrt]
  exact List.getElem?_mem h50

lemma analyzeC4 :
    analyze geoSpike ((0 : ℚ), (0 : ℚ)) ((0 : ℚ), (1 : ℚ)) 10 10 (3 / 10) elevs0 [] cen0 bElevOk
      = Except.ok ⟨dsSpike, elevs0, losLine elevs0 10 10, rsSpike, [],
          firstViolation elevs0 (losLine elevs0 10 10) rsSpike,
          (firstViolation elevs0 (losLine elevs0 10 10) rsSpike).isSome⟩ := by
  rw [analyze_eq, wavelengthE_ex]
  simp only [exBind_ok]
  rw [dsSpike_eq, totalDist_dsSpike, fresnelRadii_one_one]
  simp only [exBind_ok]
  rw [buildingPlot_nil]
  simp only [exBind_ok]
  rw [rsSpike_def]

lemma analyzeC6fail :
    analyze geoLon ((0 : ℚ), (0 : ℚ)) ((0 : ℚ), (1 : ℚ)) 10 10 (3 / 10) elevs0 [way1] cen0
      bElevFail = Except.error "lookup failed" := by
  rw [analyze_eq, wavelengthE_ex]
  simp only [exBind_ok]
  rw [dsEx_eq, totalDist_dsEx, fresnelRadii_one_one]
  simp only [exBind_ok]
  rw [buildingGeoms_way1, buildingHeights_way1]
  rw [show ([way1.nodes].zip ([10] : List ℚ)) = [(way1.nodes, (10 : ℚ))] from rfl]
  rw [buildingPlotData, exMap_cons]
  rw [show bElevFail (cen0 way1.nodes) = Except.error "lookup failed" from rfl]
  rw [exMapF_error, exBind_error, exBind_error]

lemma analyze_same_point (geo : ℚ × ℚ → ℚ × ℚ → ℚ) (tx : ℚ × ℚ) (txh rxh f : ℚ)
    (elevs : List ℚ) (ways : List Way) (cen : List (ℚ × ℚ) → ℚ × ℚ)
    (bE : ℚ × ℚ → Except String ℚ) (hg : geo tx tx = 0) :
    analyze geo tx tx txh rxh f elevs ways cen bE = Except.error "ZeroDivisionError" := by
  have hds : distances geo tx (pathPoints tx tx numPoints) = List.replicate numPoints (0 : ℚ) := by
    rw [pathPoints_eq, distances_map]
    have hmap : ∀ i ∈ List.range numPoints,
        geo tx (tx.1 + (i : ℚ) * (tx.1 - tx.1) / ((numPoints : ℚ) - 1),
          tx.2 + (i : ℚ) * (tx.2 - tx.2) / ((numPoints : ℚ) - 1)) = (0 : ℚ) := by
      intro i _
      simp only [sub_self, mul_zero, zero_div, add_zero, Prod.mk.eta]
      exact hg
    rw [List.map_congr_left hmap, List.map_const', List.length_range]
  have hct : totalDist (distances geo tx (pathPoints tx tx numPoints)) = 0 := by
    rw [hds, totalDist, List.getLastD_eq_getLast?, show numPoints = 99 + 1 from rfl,
      List.replicate_succ', List.getLast?_concat]
    rfl
  rw [analyze_eq]
  cases hw : wavelengthE f with
  | error e =>
    have he : e = "ZeroDivisionError" := by
      rw [wavelengthE, pyDiv] at hw
      by_cases hc : f * 1000000000 = 0
      · rw [if_pos hc] at hw
        injection hw with h1
        exact h1.symm
      · rw [if_neg hc] at hw
        cases hw
    rw [exBind_error, he]
  | ok w =>
    rw [exBind_ok, hct, hds]
    rw [show numPoints = 99 + 1 from rfl, List.replicate_succ]
    rw [fresnelRadii, exMap_cons]
    rw [show pyDiv (w * 0 * ((0 : ℚ) - 0)) 0 = Except.error "ZeroDivisionError" from by
      rw [pyDiv, if_pos rfl]]
    rw [exMapF_error, exBind_error, exBind_error]

lemma firstViolAux_none_elim {p : ℕ → Bool} :
    ∀ {n i : ℕ}, firstViolAux p n i = none → ∀ j, i ≤ j → j < i + n → p j = false := by
  intro n
  induction n with
  | zero => intro i _ j _ hj2; omega
  | succ m ih =>
    intro i h j hj1 hj2
    rw [firstViolAux] at h
    by_cases hp : p i = true
    · rw [if_pos hp] at h; cases h
    · rw [if_neg hp] at h
      by_cases hji : j = i
      · subst hji; simpa using hp
      · exact ih h j (by omega) (by omega)

lemma fresnelRadii_ok (w L : ℚ) (hL : L ≠ 0) (ds : List ℚ) :
    fresnelRadii w L ds = Except.ok (ds.map (fun d => npSqrt (w * d * (L - d) / L))) := by
  rw [fresnelRadii]
  refine exMap_ok_of ?_
  intro d _
  rw [pyDiv, if_neg hL, exMapF_ok]

lemma fresnelRadii_ok_ne_zero {w L : ℚ} {ds : List ℚ} {rs : List (Option ℝ)}
    (hne : ds ≠ []) (h : fresnelRadii w L ds = Except.ok rs) : L ≠ 0 := by
  intro hL0
  subst hL0
  cases ds with
  | nil => exact hne rfl
  | cons d t =>
    rw [fresnelRadii, exMap_cons] at h
    rw [show pyDiv (w * d * ((0 : ℚ) - d)) 0 = Except.error "ZeroDivisionError" from by
      rw [pyDiv, if_pos rfl]] at h
    rw [exMapF_error, exBind_error] at h
    cases h

lemma distances_length (geo : ℚ × ℚ → ℚ × ℚ → ℚ) (tx rx : ℚ × ℚ) :
    (distances geo tx (pathPoints tx rx numPoints)).length = numPoints := by
  rw [pathPoints_eq, distances_map, List.length_map, List.length_range]

lemma distances_ne_nil (geo : ℚ × ℚ → ℚ × ℚ → ℚ) (tx rx : ℚ × ℚ) :
    distances geo tx (pathPoints tx rx numPoints) ≠ [] := by
  intro h
  have := distances_length geo tx rx
  rw [h] at this
  cases this

lemma distances_head (geo : ℚ × ℚ → ℚ × ℚ → ℚ) (tx rx : ℚ × ℚ) :
    (distances geo tx (pathPoints tx rx numPoints)).head? = some (geo tx tx) := by
  rw [pathPoints_eq, distances_map, show numPoints = 99 + 1 from rfl, head_map_range]
  norm_num

lemma distances_getLast (geo : ℚ × ℚ → ℚ × ℚ → ℚ) (tx rx : ℚ × ℚ) :
    (distances geo tx (pathPoints tx rx numPoints)).getLast? = some (geo tx rx) := by
  rw [pathPoints_eq, distances_map, show numPoints = 99 + 1 from rfl, getLast_map_range]
  norm_num

lemma totalDist_eq_geo (geo : ℚ × ℚ → ℚ × ℚ → ℚ) (tx rx : ℚ × ℚ) :
    totalDist (distances geo tx (pathPoints tx rx numPoints)) = geo tx rx := by
  rw [totalDist, List.getLastD_eq_getLast?, distances_getLast]
  rfl

/-- C5 counterexample: the claimed fallthrough from a malformed `height` tag
to the `building:levels` rule does not happen in the code.  With tags
`height=abc` and `building:levels=4` the resolved height is the default 10,
not `4 * 3 = 12`: the `elif` is skipped whenever a `height` tag is present,
malformed or not. -/
theorem height_malformed_no_fallthrough : ¬ fallsThroughToLevels := by
  intro h
  have h12 := h [("height", "abc"), ("building:levels", "4")] "abc" "4"
    (0 * 10 + ((4 : ℕ) : ℚ)) rfl rfl rfl rfl
  rw [show buildingHeight [("height", "abc"), ("building:levels", "4")] = 10 from rfl] at h12
  norm_num at h12

/-- C5 amended: height resolution priority: an explicit `height` tag (unit
marker stripped) wins, a `building:levels` tag times 3.0 is used only when no
`height` tag is present at all, and the fixed default is 10; a malformed value
falls back to the default 10 — not to the next rule — so `height=abc` with
`building:levels=4` gives 10.  The claim's concrete examples hold:
`height=12.5m` gives 12.5, `building:levels=4` alone gives 12, no tags give
the default. -/
theorem height_resolution_policy :
    buildingHeight [("height", "12.5m")] = 25 / 2 ∧
    buildingHeight [("building:levels", "4")] = 12 ∧
    buildingHeight [] = 10 ∧
    buildingHeight [("height", "abc"), ("building:levels", "4")] = 10 ∧
    buildingHeight [("building:levels", "x")] = 10 := by
  refine ⟨?_, ?_, rfl, rfl, rfl⟩
  · rw [show buildingHeight [("height", "12.5m")]
        = (0 * 10 + ((1 : ℕ) : ℚ)) * 10 + ((2 : ℕ) : ℚ)
          + ((0 * 10 + ((5 : ℕ) : ℚ)) / 10 ^ 1) from rfl]
    norm_num
  · rw [show buildingHeight [("building:levels", "4")]
        = (0 * 10 + ((4 : ℕ) : ℚ)) * 3 from rfl]
    norm_num

/-- C8: the LOS reference line equals `terrain_elevation[0] + tx_height` at
index 0 and `terrain_elevation[N-1] + rx_height` at the last index, exactly. -/
theorem losLine_endpoints (elevs : List ℚ) (txh rxh e0 eN : ℚ)
    (h0 : elevs.head? = some e0) (hN : elevs.getLast? = some eN) :
    (losLine elevs txh rxh).head? = some (e0 + txh) ∧
    (losLine elevs txh rxh).getLast? = some (eN + rxh) := by
  have hh : elevs.headD 0 = e0 := by rw [List.headD_eq_head?, h0]; rfl
  have hl : elevs.getLastD 0 = eN := by rw [List.getLastD_eq_getLast?, hN]; rfl
  rw [losLine, hh, hl]
  exact ⟨linspace_head _ _, linspace_getLast _ _⟩

/-- Witness for C8 at terrain `[5, 7]`, antenna heights 2 and 3. -/
theorem losLine_endpoints_witness :
    ([5, 7] : List ℚ).head? = some 5 ∧ ([5, 7] : List ℚ).getLast? = some 7 ∧
    ((losLine [5, 7] 2 3).head? = some (5 + 2) ∧
      (losLine [5, 7] 2 3).getLast? = some (7 + 3)) :=
  ⟨rfl, rfl, losLine_endpoints [5, 7] 2 3 5 7 rfl rfl⟩

/-- C9: the sample count is the fixed constant `numPoints = 100` (the script
hard-codes it; the caller supplies no count), so the distance axis, the LOS
line and the Fresnel radius list of any completed analysis have length 100,
and the terrain profile stored in the result has length 100 whenever the
elevation service honours the requested 100 samples. -/
theorem sample_count_fixed (geo : ℚ × ℚ → ℚ × ℚ → ℚ) (tx rx : ℚ × ℚ) (txh rxh f : ℚ)
    (elevs : List ℚ) (ways : List Way) (cen : List (ℚ × ℚ) → ℚ × ℚ)
    (bE : ℚ × ℚ → Except String ℚ) (helev : elevs.length = numPoints) :
    numPoints = 100 ∧
    (distances geo tx (pathPoints tx rx numPoints)).length = 100 ∧
    (losLine elevs txh rxh).length = 100 ∧
    Except.map (fun r : AnalysisResult =>
        (r.distances.length, r.elevations.length, r.losLine.length, r.radii.length))
      (analyze geo tx rx txh rxh f elevs ways cen bE)
      = Except.map (fun _ : AnalysisResult => (100, 100, 100, 100))
          (analyze geo tx rx txh rxh f elevs ways cen bE) := by
  refine ⟨show numPoints = 100 from rfl, distances_length geo tx rx,
    by rw [losLine, linspace_length]; rfl, ?_⟩
  cases ha : analyze geo tx rx txh rxh f elevs ways cen bE with
  | error e => rfl
  | ok res =>
    obtain ⟨w, rs, bs, hw, hr, hb, hres⟩ := analyze_ok_iff.mp ha
    subst hres
    simp only [exMapF_ok]
    refine congrArg Except.ok ?_
    show ((distances geo tx (pathPoints tx rx numPoints)).length, elevs.length,
      (losLine elevs txh rxh).length, rs.length) = (100, 100, 100, 100)
    have hrs : rs.length = numPoints := by
      rw [fresnelRadii] at hr
      rw [exMap_ok_length hr, distances_length]
    rw [distances_length, losLine, linspace_length, helev, hrs]
    rfl

/-- Witness for C9 at the concrete flat-terrain example run. -/
theorem sample_count_fixed_witness :
    elevs0.length = numPoints ∧
    (numPoints = 100 ∧
      (distances geoLon ((0 : ℚ), (0 : ℚ))
        (pathPoints ((0 : ℚ), (0 : ℚ)) ((0 : ℚ), (1 : ℚ)) numPoints)).length = 100 ∧
      (losLine elevs0 10 10).length = 100 ∧
      Except.map (fun r : AnalysisResult =>
          (r.distances.length, r.elevations.length, r.losLine.length, r.radii.length))
        (analyze geoLon ((0 : ℚ), (0 : ℚ)) ((0 : ℚ), (1 : ℚ)) 10 10 (3 / 10) elevs0 [way1]
          cen0 bElevOk)
        = Except.map (fun _ : AnalysisResult => (100, 100, 100, 100))
            (analyze geoLon ((0 : ℚ), (0 : ℚ)) ((0 : ℚ), (1 : ℚ)) 10 10 (3 / 10) elevs0 [way1]
              cen0 bElevOk)) :=
  ⟨rfl, sample_count_fixed geoLon ((0 : ℚ), (0 : ℚ)) ((0 : ℚ), (1 : ℚ)) 10 10 (3 / 10) elevs0
    [way1] cen0 bElevOk rfl⟩

lemma head?_map {α β : Type} (f : α → β) (l : List α) :
    (l.map f).head? = l.head?.map f := by
  rw [List.head?_eq_getElem?, List.head?_eq_getElem?, List.getElem?_map]

lemma getLast?_map {α β : Type} (f : α → β) (l : List α) :
    (l.map f).getLast? = l.getLast?.map f := by
  rw [List.getLast?_eq_getElem?, List.getLast?_eq_getElem?, List.length_map, List.getElem?_map]

/-- C7: for a link whose total path length is non-zero (TX distinct from RX)
and a non-zero frequency, the Fresnel radius list is produced without error
and its first and last entries are exactly 0: the first sampled point is TX
itself (distance 0 once the geodesic primitive gives `geo tx tx = 0`), and
the last distance is the total path length itself, so both radicands vanish. -/
theorem fresnel_zero_at_endpoints (geo : ℚ × ℚ → ℚ × ℚ → ℚ) (tx rx : ℚ × ℚ) (f : ℚ)
    (hg : geo tx tx = 0)
    (hL : totalDist (distances geo tx (pathPoints tx rx numPoints)) ≠ 0)
    (hf : f * 1000000000 ≠ 0) :
    Except.map List.head? (radiiPipeline geo tx rx f) = Except.ok (some (some (0 : ℝ))) ∧
    Except.map List.getLast? (radiiPipeline geo tx rx f) = Except.ok (some (some (0 : ℝ))) := by
  have hw : wavelengthE f = Except.ok (300000000 / (f * 1000000000)) := by
    rw [wavelengthE, pyDiv, if_neg hf]
  rw [radiiPipeline, hw]
  simp only [exBind_ok]
  rw [fresnelRadii_ok _ _ hL]
  constructor
  · rw [exMapF_ok, head?_map, distances_head geo tx rx, hg, Option.map_some']
    rw [show 300000000 / (f * 1000000000) * 0 *
        (totalDist (distances geo tx (pathPoints tx rx numPoints)) - 0) /
        totalDist (distances geo tx (pathPoints tx rx numPoints)) = 0 from by ring]
    rw [npSqrt_zero]
  · rw [exMapF_ok, getLast?_map, distances_getLast geo tx rx, Option.map_some']
    rw [totalDist_eq_geo geo tx rx, sub_self, mul_zero, zero_div, npSqrt_zero]

/-- Witness for C7 at the concrete flat-path example. -/
theorem fresnel_zero_at_endpoints_witness :
    geoLon ((0 : ℚ), (0 : ℚ)) ((0 : ℚ), (0 : ℚ)) = 0 ∧
    totalDist (distances geoLon ((0 : ℚ), (0 : ℚ))
      (pathPoints ((0 : ℚ), (0 : ℚ)) ((0 : ℚ), (1 : ℚ)) numPoints)) ≠ 0 ∧
    (3 / 10 : ℚ) * 1000000000 ≠ 0 ∧
    (Except.map List.head? (radiiPipeline geoLon ((0 : ℚ), (0 : ℚ)) ((0 : ℚ), (1 : ℚ)) (3 / 10))
        = Except.ok (some (some (0 : ℝ))) ∧
      Except.map List.getLast?
          (radiiPipeline geoLon ((0 : ℚ), (0 : ℚ)) ((0 : ℚ), (1 : ℚ)) (3 / 10))
        = Except.ok (some (some (0 : ℝ)))) :=
  ⟨by simp [geoLon], by rw [dsEx_eq, totalDist_dsEx]; norm_num, by norm_num,
    fresnel_zero_at_endpoints geoLon ((0 : ℚ), (0 : ℚ)) ((0 : ℚ), (1 : ℚ)) (3 / 10)
      (by simp [geoLon]) (by rw [dsEx_eq, totalDist_dsEx]; norm_num) (by norm_num)⟩

/-- C2 amended: the obstruction loop breaks at the first index whose terrain
sample lies STRICTLY above the clearance threshold (`violAt`, the source's
`elevations[i] > los_line[i] - 0.6 * fresnel_radii[i]`); it reports no
violation exactly when no sample among the 100 satisfies the strict
comparison, so a sample lying exactly at the threshold does not obstruct. -/
theorem obstruction_first_strict_violation (elevs los : List ℚ) (rs : List (Option ℝ)) :
    ((firstViolation elevs los rs).isSome = false ↔
      ∀ i < numPoints, violAt elevs los rs i = false) ∧
    ∀ i, firstViolation elevs los rs = some i ↔
      i < numPoints ∧ violAt elevs los rs i = true ∧
        ∀ j < i, violAt elevs los rs j = false := by
  constructor
  · constructor
    · intro h i hi
      cases hv : firstViolation elevs los rs with
      | some k => rw [hv] at h; simp at h
      | none =>
        rw [firstViolation] at hv
        exact firstViolAux_none_elim hv i (Nat.zero_le i) (by rw [Nat.zero_add]; exact hi)
    · intro h
      cases hv : firstViolation elevs los rs with
      | none => rfl
      | some k =>
        rw [firstViolation] at hv
        obtain ⟨h0, hk, hp, hmin⟩ := firstViolAux_some_elim hv
        rw [h k (by rw [Nat.zero_add] at hk; exact hk)] at hp
        cases hp
  · intro i
    constructor
    · intro hv
      rw [firstViolation] at hv
      obtain ⟨h0, hlt, hp, hmin⟩ := firstViolAux_some_elim hv
      exact ⟨by rw [Nat.zero_add] at hlt; exact hlt, hp,
        fun j hj => hmin j (Nat.zero_le j) hj⟩
    · rintro ⟨hi, hp, hmin⟩
      rw [firstViolation]
      exact firstViolAux_some (Nat.zero_le i) (by rw [Nat.zero_add]; exact hi) hp
        (fun j _ hj => hmin j hj)

/-- C3 counterexample: at a concrete TX = RX input the analysis fails with
`ZeroDivisionError` (raised by the Fresnel division and caught by the generic
handler), not with the claimed `InvalidGeometryError` — no such error exists
anywhere in the script. -/
theorem tx_eq_rx_not_invalid_geometry : ¬ raisesInvalidGeometryError := by
  intro h
  have h1 := h geoLon ((0 : ℚ), (0 : ℚ)) 10 10 (3 / 10) elevs0 [] cen0 bElevOk
    (by simp [geoLon])
  have h2 := analyze_same_point geoLon ((0 : ℚ), (0 : ℚ)) 10 10 (3 / 10) elevs0 [] cen0 bElevOk
    (by simp [geoLon])
  rw [h2] at h1
  injection h1 with h3
  exact absurd h3 (by decide)

/-- C3 amended: whenever the geodesic primitive reports distance 0 from TX to
itself, running the analysis with RX = TX raises `ZeroDivisionError` — from
the Fresnel radicand division by `total_dist = 0` (or already from the
wavelength division when the frequency is 0) — so no result is returned at
all, and in particular no result containing division-by-zero artifacts. -/
theorem tx_eq_rx_zero_division_error (geo : ℚ × ℚ → ℚ × ℚ → ℚ) (tx : ℚ × ℚ)
    (txh rxh f : ℚ) (elevs : List ℚ) (ways : List Way) (cen : List (ℚ × ℚ) → ℚ × ℚ)
    (bE : ℚ × ℚ → Except String ℚ) (hg : geo tx tx = 0) :
    analyze geo tx tx txh rxh f elevs ways cen bE = Except.error "ZeroDivisionError" :=
  analyze_same_point geo tx txh rxh f elevs ways cen bE hg

/-- Witness for the amended C3 at a concrete TX = RX input. -/
theorem tx_eq_rx_zero_division_error_witness :
    geoLon ((0 : ℚ), (0 : ℚ)) ((0 : ℚ), (0 : ℚ)) = 0 ∧
    analyze geoLon ((0 : ℚ), (0 : ℚ)) ((0 : ℚ), (0 : ℚ)) 10 10 (3 / 10) elevs0 [] cen0 bElevOk
      = Except.error "ZeroDivisionError" :=
  ⟨by simp [geoLon],
    tx_eq_rx_zero_division_error geoLon ((0 : ℚ), (0 : ℚ)) 10 10 (3 / 10) elevs0 [] cen0 bElevOk
      (by simp [geoLon])⟩

/-- C1 counterexample: a concrete clear-terrain run with one building whose
top (ground 1000 m + height 10 m) towers over the clearance threshold at its
projected distance (sample 50), yet the verdict is Clear: the obstruction
loop never consults the building data. -/
theorem building_intrusion_ignored : ¬ buildingsAffectVerdict := by
  intro h
  have hob := h geoLon ((0 : ℚ), (0 : ℚ)) ((0 : ℚ), (1 : ℚ)) 10 10 (3 / 10) elevs0 [way1] cen0
    bElevOk ⟨dsEx, elevs0, losLine elevs0 10 10, rsEx, [(50 / 99, 1000, 10)], none, false⟩
    analyzeC1 rfl ?_
  · exact absurd hob (by simp)
  · refine ⟨(50 / 99, 1000, 10), List.mem_singleton.mpr rfl, 50, by norm_num [numPoints],
      ?_, ?_⟩
    · show dsEx.getD 50 0 = 50 / 99
      rw [dsEx, getD_map_range _ _ (show (50 : ℕ) < 100 by norm_num)]
      norm_num
    · refine ⟨Real.sqrt ((((50 : ℕ) : ℚ) / 99 * (1 - ((50 : ℕ) : ℚ) / 99) : ℚ) : ℝ),
        rsEx_getD (by norm_num), ?_⟩
      have hlos : (losLine elevs0 10 10).getD 50 0 = 10 := by
        rw [losLine_elevs0, linspace_getD _ _ (show (50 : ℕ) < numPoints by norm_num [numPoints])]
        norm_num
      show ((1000 + 10 : ℚ) : ℝ) > (((losLine elevs0 10 10).getD 50 0 : ℚ) : ℝ)
        - 0.6 * Real.sqrt ((((50 : ℕ) : ℚ) / 99 * (1 - ((50 : ℕ) : ℚ) / 99) : ℚ) : ℝ)
      rw [hlos]
      have hs := Real.sqrt_nonneg (((((50 : ℕ) : ℚ) / 99 * (1 - ((50 : ℕ) : ℚ) / 99) : ℚ)) : ℝ)
      push_cast
      linarith

/-- C1 amended: the verdict never depends on the building data: two runs that
agree on everything except the building inputs (ways, centroid primitive,
building elevation service) and both complete produce the same `obstruction`
flag and the same break index — buildings are plotted but play no part in the
obstruction decision. -/
theorem verdict_independent_of_buildings (geo : ℚ × ℚ → ℚ × ℚ → ℚ) (tx rx : ℚ × ℚ)
    (txh rxh f : ℚ) (elevs : List ℚ) (ways ways2 : List Way)
    (cen cen2 : List (ℚ × ℚ) → ℚ × ℚ) (bE bE2 : ℚ × ℚ → Except String ℚ)
    (h1 : exIsOk (analyze geo tx rx txh rxh f elevs ways cen bE) = true)
    (h2 : exIsOk (analyze geo tx rx txh rxh f elevs ways2 cen2 bE2) = true) :
    Except.map (fun r : AnalysisResult => (r.obstructed, r.violationIndex))
      (analyze geo tx rx txh rxh f elevs ways cen bE)
      = Except.map (fun r : AnalysisResult => (r.obstructed, r.violationIndex))
        (analyze geo tx rx txh rxh f elevs ways2 cen2 bE2) := by
  cases ha : analyze geo tx rx txh rxh f elevs ways cen bE with
  | error e => rw [ha] at h1; simp [exIsOk] at h1
  | ok r1 =>
    cases hb : analyze geo tx rx txh rxh f elevs ways2 cen2 bE2 with
    | error e => rw [hb] at h2; simp [exIsOk] at h2
    | ok r2 =>
      obtain ⟨w1, rs1, bs1, hw1, hr1, hb1, hres1⟩ := analyze_ok_iff.mp ha
      obtain ⟨w2, rs2, bs2, hw2, hr2, hb2, hres2⟩ := analyze_ok_iff.mp hb
      rw [hw1] at hw2
      injection hw2 with hww
      subst hww
      rw [hr1] at hr2
      injection hr2 with hrr
      subst hrr
      subst hres1
      subst hres2
      rfl

/-- Witness for the amended C1: the example run with the intruding building
and the same run with no buildings at all (and a failing building elevation
service) yield the same verdict data. -/
theorem verdict_independent_of_buildings_witness :
    exIsOk (analyze geoLon ((0 : ℚ), (0 : ℚ)) ((0 : ℚ), (1 : ℚ)) 10 10 (3 / 10) elevs0 [way1]
      cen0 bElevOk) = true ∧
    exIsOk (analyze geoLon ((0 : ℚ), (0 : ℚ)) ((0 : ℚ), (1 : ℚ)) 10 10 (3 / 10) elevs0 []
      cen0 bElevFail) = true ∧
    Except.map (fun r : AnalysisResult => (r.obstructed, r.violationIndex))
      (analyze geoLon ((0 : ℚ), (0 : ℚ)) ((0 : ℚ), (1 : ℚ)) 10 10 (3 / 10) elevs0 [way1]
        cen0 bElevOk)
      = Except.map (fun r : AnalysisResult => (r.obstructed, r.violationIndex))
        (analyze geoLon ((0 : ℚ), (0 : ℚ)) ((0 : ℚ), (1 : ℚ)) 10 10 (3 / 10) elevs0 []
          cen0 bElevFail) :=
  ⟨by rw [analyzeC1]; rfl, by rw [analyzeC1b]; rfl,
    verdict_independent_of_buildings geoLon ((0 : ℚ), (0 : ℚ)) ((0 : ℚ), (1 : ℚ)) 10 10 (3 / 10)
      elevs0 [way1] [] cen0 cen0 bElevOk bElevFail
      (by rw [analyzeC1]; rfl) (by rw [analyzeC1b]; rfl)⟩

/-- C2 counterexample: a run whose sample 0 lies exactly AT the clearance
threshold (flat terrain 0, TX antenna height 0, so threshold at sample 0 is
`0 - 0.6 * 0 = 0`): the claim's at-or-above rule calls this Obstructed, but
the code's strict `>` comparison leaves the verdict Clear. -/
theorem at_threshold_not_obstructed : ¬ atOrAboveForcesObstructed := by
  intro h
  have hob := h geoLon ((0 : ℚ), (0 : ℚ)) ((0 : ℚ), (1 : ℚ)) 0 40 (3 / 10) elevs0 [] cen0
    bElevOk ⟨dsEx, elevs0, losLine elevs0 0 40, rsEx, [], none, false⟩ analyzeC2 ?_
  · exact absurd hob (by simp)
  · refine ⟨0, by norm_num [numPoints], ?_⟩
    show specSampleAtOrAbove elevs0 (losLine elevs0 0 40) rsEx 0
    refine ⟨Real.sqrt ((((0 : ℕ) : ℚ) / 99 * (1 - ((0 : ℕ) : ℚ) / 99) : ℚ) : ℝ),
      rsEx_getD (by norm_num), ?_⟩
    rw [elevs0_getD (by norm_num), losLine_elevs0,
      linspace_getD _ _ (show (0 : ℕ) < numPoints by norm_num [numPoints])]
    push_cast
    norm_num

/-- C4 counterexample: no clamp exists.  With a distance oracle that reports
sample 50 at distance 2 while the total path length is 1 — the very scenario
(`distance_m[i] > total_path_length_m`) the claim says the clamp absorbs —
the radicand `w * 2 * (1 - 2) / 1` is negative and `np.sqrt` yields NaN
(`none`), so the completed analysis contains a radius that is neither defined
nor non-negative. -/
theorem radius_nan_when_distance_exceeds_total : ¬ radiiAlwaysDefinedNonneg := by
  intro h
  have hall := h geoSpike ((0 : ℚ), (0 : ℚ)) ((0 : ℚ), (1 : ℚ)) 10 10 (3 / 10) elevs0 [] cen0
    bElevOk ⟨dsSpike, elevs0, losLine elevs0 10 10, rsSpike, [],
      firstViolation elevs0 (losLine elevs0 10 10) rsSpike,
      (firstViolation elevs0 (losLine elevs0 10 10) rsSpike).isSome⟩ analyzeC4
  obtain ⟨v, hv, -⟩ := hall none rsSpike_mem_none
  cases hv

/-- C4 amended: there is no clamp, but whenever every sample distance lies
within `[0, total_path_length]` and the frequency is non-negative, every
radicand is non-negative, so every Fresnel radius of a completed computation
is a defined (non-NaN) non-negative real.  A distance exceeding the total
instead gives a negative radicand and a NaN radius (see the counterexample). -/
theorem radii_defined_nonneg_for_distances_in_range (geo : ℚ × ℚ → ℚ × ℚ → ℚ)
    (tx rx : ℚ × ℚ) (f : ℚ) (hf : 0 ≤ f)
    (hds : ∀ d ∈ distances geo tx (pathPoints tx rx numPoints),
      0 ≤ d ∧ d ≤ totalDist (distances geo tx (pathPoints tx rx numPoints))) :
    ∀ w rs, wavelengthE f = Except.ok w →
      fresnelRadii w (totalDist (distances geo tx (pathPoints tx rx numPoints)))
        (distances geo tx (pathPoints tx rx numPoints)) = Except.ok rs →
      ∀ r ∈ rs, ∃ v, r = some v ∧ 0 ≤ v := by
  intro w rs hw hr r hrm
  have hLne : totalDist (distances geo tx (pathPoints tx rx numPoints)) ≠ 0 :=
    fresnelRadii_ok_ne_zero (distances_ne_nil geo tx rx) hr
  have hLmem : geo tx rx ∈ distances geo tx (pathPoints tx rx numPoints) :=
    List.mem_of_mem_getLast? (distances_getLast geo tx rx)
  have hLpos : 0 < totalDist (distances geo tx (pathPoints tx rx numPoints)) := by
    rcases hds _ hLmem with ⟨h0, -⟩
    rw [totalDist_eq_geo] at hLne ⊢
    exact lt_of_le_of_ne h0 (Ne.symm hLne)
  have hw0 : 0 ≤ w := by
    rw [wavelengthE, pyDiv] at hw
    by_cases hc : f * 1000000000 = 0
    · rw [if_pos hc] at hw; cases hw
    · rw [if_neg hc] at hw
      injection hw with hww
      rw [← hww]
      exact div_nonneg (by norm_num) (by positivity)
  have hfe := fresnelRadii_ok w _ hLne (distances geo tx (pathPoints tx rx numPoints))
  rw [hr] at hfe
  injection hfe with hrs
  subst hrs
  rw [List.mem_map] at hrm
  obtain ⟨d, hd, hgd⟩ := hrm
  rcases hds d hd with ⟨hd0, hdL⟩
  have hrad : 0 ≤ w * d * (totalDist (distances geo tx (pathPoints tx rx numPoints)) - d) /
      totalDist (distances geo tx (pathPoints tx rx numPoints)) := by
    apply div_nonneg
    · exact mul_nonneg (mul_nonneg hw0 hd0) (by linarith)
    · linarith
  exact ⟨Real.sqrt ((w * d * (totalDist (distances geo tx (pathPoints tx rx numPoints)) - d) /
      totalDist (distances geo tx (pathPoints tx rx numPoints)) : ℚ) : ℝ),
    by rw [← hgd, npSqrt_of_nonneg hrad], Real.sqrt_nonneg _⟩

/-- Witness for the amended C4 at the concrete flat-path example, whose
distances all lie in `[0, 1]`. -/
theorem radii_defined_nonneg_for_distances_in_range_witness :
    (0 : ℚ) ≤ 3 / 10 ∧
    (∀ d ∈ distances geoLon ((0 : ℚ), (0 : ℚ))
        (pathPoints ((0 : ℚ), (0 : ℚ)) ((0 : ℚ), (1 : ℚ)) numPoints),
      0 ≤ d ∧ d ≤ totalDist (distances geoLon ((0 : ℚ), (0 : ℚ))
        (pathPoints ((0 : ℚ), (0 : ℚ)) ((0 : ℚ), (1 : ℚ)) numPoints))) ∧
    (∀ w rs, wavelengthE (3 / 10) = Except.ok w →
      fresnelRadii w (totalDist (distances geoLon ((0 : ℚ), (0 : ℚ))
          (pathPoints ((0 : ℚ), (0 : ℚ)) ((0 : ℚ), (1 : ℚ)) numPoints)))
        (distances geoLon ((0 : ℚ), (0 : ℚ))
          (pathPoints ((0 : ℚ), (0 : ℚ)) ((0 : ℚ), (1 : ℚ)) numPoints)) = Except.ok rs →
      ∀ r ∈ rs, ∃ v, r = some v ∧ 0 ≤ v) := by
  have hds : ∀ d ∈ distances geoLon ((0 : ℚ), (0 : ℚ))
      (pathPoints ((0 : ℚ), (0 : ℚ)) ((0 : ℚ), (1 : ℚ)) numPoints),
      0 ≤ d ∧ d ≤ totalDist (distances geoLon ((0 : ℚ), (0 : ℚ))
        (pathPoints ((0 : ℚ), (0 : ℚ)) ((0 : ℚ), (1 : ℚ)) numPoints)) := by
    rw [dsEx_eq, totalDist_dsEx]
    intro d hd
    rw [dsEx, List.mem_map] at hd
    obtain ⟨i, hi, rfl⟩ := hd
    rw [List.mem_range] at hi
    have h99 : (i : ℚ) ≤ 99 := by exact_mod_cast Nat.lt_succ_iff.mp hi
    constructor
    · positivity
    · rw [div_le_one (by norm_num)]
      linarith
  exact ⟨by norm_num, hds,
    radii_defined_nonneg_for_distances_in_range geoLon ((0 : ℚ), (0 : ℚ)) ((0 : ℚ), (1 : ℚ))
      (3 / 10) (by norm_num) hds⟩

/-- C6 counterexample: with one valid building whose centroid elevation
lookup always fails, the whole analysis aborts with that error — no result is
produced at all, so no fallback to the minimum terrain elevation happens. -/
theorem lookup_failure_aborts_analysis : ¬ lookupFailureFallsBack := by
  intro h
  have hcond : ∃ wy ∈ [way1], ∃ g, mkPolygon wy.nodes = some g ∧
      ∀ q, bElevFail (cen0 g) ≠ Except.ok q := by
    refine ⟨way1, List.mem_singleton.mpr rfl, way1.nodes, ?_, ?_⟩
    · rw [mkPolygon, if_pos (show 3 ≤ way1.nodes.length by norm_num [way1])]
    · intro q hq
      simp [bElevFail] at hq
  obtain ⟨res, hres, -⟩ := h geoLon ((0 : ℚ), (0 : ℚ)) ((0 : ℚ), (1 : ℚ)) 10 10 (3 / 10) elevs0
    [way1] cen0 bElevFail hcond
  rw [analyzeC6fail] at hres
  cases hres

/-- C6 amended: a failed elevation lookup for a building centroid makes the
whole analysis fail with that very error (the script's generic handler
reports it); no ground-elevation fallback is substituted and no result is
produced.  Stated for a run whose earlier stages (wavelength, Fresnel radii)
succeed and whose single building has a valid footprint. -/
theorem lookup_failure_fails_analysis (geo : ℚ × ℚ → ℚ × ℚ → ℚ) (tx rx : ℚ × ℚ)
    (txh rxh f : ℚ) (elevs : List ℚ) (nodes : List (ℚ × ℚ)) (tags : List (String × String))
    (cen : List (ℚ × ℚ) → ℚ × ℚ) (bE : ℚ × ℚ → Except String ℚ) (msg : String)
    (hn : 3 ≤ nodes.length) (hbe : bE (cen nodes) = Except.error msg)
    (hwl : exIsOk (wavelengthE f) = true)
    (hfr : ∀ w, wavelengthE f = Except.ok w →
      exIsOk (fresnelRadii w (totalDist (distances geo tx (pathPoints tx rx numPoints)))
        (distances geo tx (pathPoints tx rx numPoints))) = true) :
    analyze geo tx rx txh rxh f elevs [⟨nodes, tags⟩] cen bE = Except.error msg := by
  cases hw : wavelengthE f with
  | error e => rw [hw] at hwl; simp [exIsOk] at hwl
  | ok w =>
    have hfr2 := hfr w hw
    cases hr : fresnelRadii w (totalDist (distances geo tx (pathPoints tx rx numPoints)))
        (distances geo tx (pathPoints tx rx numPoints)) with
    | error e => rw [hr] at hfr2; simp [exIsOk] at hfr2
    | ok rs =>
      rw [analyze_eq, hw]
      simp only [exBind_ok]
      rw [hr]
      simp only [exBind_ok]
      have hgeoms : buildingGeoms [⟨nodes, tags⟩] = [nodes] := by
        rw [buildingGeoms]
        simp [mkPolygon, hn]
      rw [hgeoms]
      rw [show buildingHeights [⟨nodes, tags⟩] = [buildingHeight tags] from rfl]
      rw [show ([nodes].zip [buildingHeight tags]) = [(nodes, buildingHeight tags)] from rfl]
      rw [buildingPlotData, exMap_cons, hbe, exMapF_error, exBind_error, exBind_error]

/-- Witness for the amended C6 at the concrete example with a failing
building elevation service. -/
theorem lookup_failure_fails_analysis_witness :
    3 ≤ way1.nodes.length ∧
    bElevFail (cen0 way1.nodes) = Except.error "lookup failed" ∧
    exIsOk (wavelengthE (3 / 10)) = true ∧
    analyze geoLon ((0 : ℚ), (0 : ℚ)) ((0 : ℚ), (1 : ℚ)) 10 10 (3 / 10) elevs0
      [⟨way1.nodes, way1.tags⟩] cen0 bElevFail = Except.error "lookup failed" := by
  refine ⟨by norm_num [way1], rfl, by rw [wavelengthE_ex]; rfl, ?_⟩
  refine lookup_failure_fails_analysis geoLon ((0 : ℚ), (0 : ℚ)) ((0 : ℚ), (1 : ℚ)) 10 10
    (3 / 10) elevs0 way1.nodes way1.tags cen0 bElevFail "lookup failed"
    (by norm_num [way1]) rfl (by rw [wavelengthE_ex]; rfl) ?_
  intro w hw
  rw [wavelengthE_ex] at hw
  injection hw with hww
  subst hww
  rw [dsEx_eq, totalDist_dsEx, fresnelRadii_one_one]
  rfl

lemma violAt_zero_false (geo : ℚ × ℚ → ℚ × ℚ → ℚ) (tx rx : ℚ × ℚ) (w txh rxh : ℚ)
    (elevs : List ℚ) (hg : geo tx tx = 0) (htx : 0 ≤ txh) :
    violAt elevs (losLine elevs txh rxh)
      ((distances geo tx (pathPoints tx rx numPoints)).map
        (fun d => npSqrt (w * d * (totalDist (distances geo tx (pathPoints tx rx numPoints)) - d)
          / totalDist (distances geo tx (pathPoints tx rx numPoints))))) 0 = false := by
  have hget : ((distances geo tx (pathPoints tx rx numPoints)).map
      (fun d => npSqrt (w * d * (totalDist (distances geo tx (pathPoints tx rx numPoints)) - d)
        / totalDist (distances geo tx (pathPoints tx rx numPoints))))).getD 0 none
      = some (0 : ℝ) := by
    rw [List.getD_eq_getElem?_getD, ← List.head?_eq_getElem?, head?_map,
      distances_head geo tx rx, hg, Option.map_some', Option.getD_some]
    rw [show w * 0 * (totalDist (distances geo tx (pathPoints tx rx numPoints)) - 0)
        / totalDist (distances geo tx (pathPoints tx rx numPoints)) = 0 from by ring]
    exact npSqrt_zero
  simp only [violAt, hget]
  apply decide_eq_false
  intro hcon
  have h1 : elevs.getD 0 0 = elevs.headD 0 := by
    rw [List.getD_eq_getElem?_getD, List.headD_eq_head?, List.head?_eq_getElem?]
  have h2 : (losLine elevs txh rxh).getD 0 0 = elevs.headD 0 + txh := by
    rw [losLine, linspace_getD _ _ (show (0 : ℕ) < numPoints by norm_num [numPoints])]
    norm_num
  rw [h1, h2] at hcon
  push_cast at hcon
  have htx2 : (0 : ℝ) ≤ (txh : ℝ) := by exact_mod_cast htx
  linarith

lemma violAt_last_false (geo : ℚ × ℚ → ℚ × ℚ → ℚ) (tx rx : ℚ × ℚ) (w txh rxh : ℚ)
    (elevs : List ℚ) (hrx : 0 ≤ rxh) (helev : elevs.length = numPoints) :
    violAt elevs (losLine elevs txh rxh)
      ((distances geo tx (pathPoints tx rx numPoints)).map
        (fun d => npSqrt (w * d * (totalDist (distances geo tx (pathPoints tx rx numPoints)) - d)
          / totalDist (distances geo tx (pathPoints tx rx numPoints))))) 99 = false := by
  have hget : ((distances geo tx (pathPoints tx rx numPoints)).map
      (fun d => npSqrt (w * d * (totalDist (distances geo tx (pathPoints tx rx numPoints)) - d)
        / totalDist (distances geo tx (pathPoints tx rx numPoints))))).getD 99 none
      = some (0 : ℝ) := by
    rw [List.getD_eq_getElem?_getD]
    have h99 : ∀ l : List (Option ℝ), l.length = numPoints → l[99]? = l.getLast? := by
      intro l hl
      rw [List.getLast?_eq_getElem?, hl]
      norm_num [numPoints]
    rw [h99 _ (by rw [List.length_map, distances_length geo tx rx]), getLast?_map,
      distances_getLast geo tx rx, Option.map_some', Option.getD_some]
    rw [show w * geo tx rx * (totalDist (distances geo tx (pathPoints tx rx numPoints))
        - geo tx rx) / totalDist (distances geo tx (pathPoints tx rx numPoints)) = 0 from by
      rw [totalDist_eq_geo]; ring]
    exact npSqrt_zero
  simp only [violAt, hget]
  apply decide_eq_false
  intro hcon
  have h1 : elevs.getD 99 0 = elevs.getLastD 0 := by
    rw [List.getD_eq_getElem?_getD, List.getLastD_eq_getLast?, List.getLast?_eq_getElem?, helev]
    norm_num [numPoints]
  have h2 : (losLine elevs txh rxh).getD 99 0 = elevs.getLastD 0 + rxh := by
    rw [losLine, linspace_getD _ _ (show (99 : ℕ) < numPoints by norm_num [numPoints])]
    push_cast
    ring
  rw [h1, h2] at hcon
  push_cast at hcon
  have hrx2 : (0 : ℝ) ≤ (rxh : ℝ) := by exact_mod_cast hrx
  linarith

/-- C10: with a zero self-distance from the geodesic primitive, non-negative
antenna heights and a full-length terrain profile, the obstruction loop can
never break at the first or last sample: the Fresnel radius is exactly zero
there, the LOS line passes through terrain + antenna height, and the
comparison is strict, so any reported violation index is strictly between 0
and `numPoints - 1`. -/
theorem violation_index_strictly_interior (geo : ℚ × ℚ → ℚ × ℚ → ℚ) (tx rx : ℚ × ℚ)
    (txh rxh f : ℚ) (elevs : List ℚ) (hg : geo tx tx = 0) (htx : 0 ≤ txh) (hrx : 0 ≤ rxh)
    (helev : elevs.length = numPoints) :
    ∀ rs i, radiiPipeline geo tx rx f = Except.ok rs →
      firstViolation elevs (losLine elevs txh rxh) rs = some i →
      0 < i ∧ i < numPoints - 1 := by
  intro rs i hrp hvi
  rw [radiiPipeline] at hrp
  cases hw : wavelengthE f with
  | error e => rw [hw, exBind_error] at hrp; cases hrp
  | ok w =>
    rw [hw] at hrp
    simp only [exBind_ok] at hrp
    have hLne : totalDist (distances geo tx (pathPoints tx rx numPoints)) ≠ 0 :=
      fresnelRadii_ok_ne_zero (distances_ne_nil geo tx rx) hrp
    have hfe := fresnelRadii_ok w _ hLne (distances geo tx (pathPoints tx rx numPoints))
    rw [hrp] at hfe
    injection hfe with hrs
    subst hrs
    rw [firstViolation] at hvi
    obtain ⟨h0, hlt, hp, hmin⟩ := firstViolAux_some_elim hvi
    rw [Nat.zero_add] at hlt
    have hne0 : i ≠ 0 := by
      intro he
      rw [he, violAt_zero_false geo tx rx w txh rxh elevs hg htx] at hp
      cases hp
    have hne99 : i ≠ 99 := by
      intro he
      rw [he, violAt_last_false geo tx rx w txh rxh elevs hrx helev] at hp
      cases hp
    rw [show numPoints = 100 from rfl] at hlt
    rw [show numPoints - 1 = 99 from rfl]
    omega

/-- Witness for C10 at the concrete flat-path example. -/
theorem violation_index_strictly_interior_witness :
    geoLon ((0 : ℚ), (0 : ℚ)) ((0 : ℚ), (0 : ℚ)) = 0 ∧ (0 : ℚ) ≤ 10 ∧
    elevs0.length = numPoints ∧
    (∀ rs i, radiiPipeline geoLon ((0 : ℚ), (0 : ℚ)) ((0 : ℚ), (1 : ℚ)) (3 / 10)
        = Except.ok rs →
      firstViolation elevs0 (losLine elevs0 10 10) rs = some i →
      0 < i ∧ i < numPoints - 1) :=
  ⟨by simp [geoLon], by norm_num, rfl,
    violation_index_strictly_interior geoLon ((0 : ℚ), (0 : ℚ)) ((0 : ℚ), (1 : ℚ)) 10 10 (3 / 10)
      elevs0 (by simp [geoLon]) (by norm_num) (by norm_num) rfl⟩
